import Mathlib

/-!
Verification development for the QGIS-server synchronization slice of the
geonode repository: the signal handlers in `geonode/qgis_server/signals.py`
and the `QGISServerLayer` persistence model in `models.py`.

The Python code is shallowly embedded: filesystem state is a list of existing
file paths, database rows and external-call outcomes are explicit inputs, and
each handler is a pure function from an environment describing those inputs to
a result record describing every persisted effect together with an optional
uncaught Python exception.  Source is Python 2: string formatting and `+`
concatenation are modelled where their (mis)behaviour matters.
-/

/-- Index of the last occurrence of `c` in `l`, as `str.rfind` returns it:
the index, or `-1` when absent. -/
def rfindIdx (c : Char) (l : List Char) : Int :=
  match l.reverse.findIdx? (fun x => x == c) with
  | some i => (l.length : Int) - 1 - (i : Int)
  | none => -1

/-- `os.path.splitext` (posix): split a path into `(root, ext)` where `ext`
is the suffix starting at the last dot, provided that dot lies after the last
path separator and the basename does not consist solely of leading dots. -/
def splitext (p : String) : String × String :=
  let l := p.toList
  let sepIndex : Int := rfindIdx '/' l
  let dotIndex : Int := rfindIdx '.' l
  let hasStem : Bool :=
    decide (sepIndex < dotIndex) &&
      (List.range l.length).any (fun i =>
        decide (sepIndex < (i : Int)) && decide ((i : Int) < dotIndex) &&
          (l.getD i '.' != '.'))
  if hasStem then (String.mk (l.take dotIndex.toNat), String.mk (l.drop dotIndex.toNat))
  else (p, "")

/-- `os.path.basename` (posix): everything after the last `/`. -/
def baseName (p : String) : String :=
  String.mk (p.toList.drop ((rfindIdx '/' p.toList) + 1).toNat)

/-- `os.path.join` (posix) restricted to two components. -/
def pathJoin (a b : String) : String :=
  if b.startsWith "/" then b
  else if a = "" || a.endsWith "/" then a ++ b
  else a ++ "/" ++ b

/-- Python `s.split('.')[-1]`: the suffix after the last dot, or `s` itself
when no dot occurs. -/
def lastSplitDot (s : String) : String :=
  let l := s.toList
  let i := rfindIdx '.' l
  if i < 0 then s else String.mk (l.drop (i.toNat + 1))

namespace QGISServerLayer

/-- `QGISServerLayer.accepted_format` from `models.py`. -/
def accepted_format : List String :=
  ["tif", "tiff", "asc", "shp", "shx", "dbf", "prj", "qml", "xml"]

/-- Modelled from the spec: `QGISServerLayer.geotiff_format` is referenced by
`signals.py` (line 385) but its definition is not part of this repository
slice of `models.py`; per the spec the geotiff-qualifying original extensions
are `.tif` and `.tiff`, a subset of the accepted-format list used only to
decide whether a "GeoTIFF" Link is created. -/
def geotiff_format : List String := ["tif", "tiff"]

end QGISServerLayer

/-- Modelled from the spec: `QGISServerLayer.qgis_layer_path_prefix` is
referenced by `signals.py` (lines 145 and 452) but not defined in this
repository slice; per the spec (§4.2 step 4) the mirrored path prefix is
`base_layer_path` with its format-specific extension split off. -/
def qgis_layer_path_stem (base_layer_path : String) : String :=
  (splitext base_layer_path).1

/-- `os.path.exists` guard followed by `os.remove`: drop `p` from the
filesystem when present, otherwise leave the filesystem untouched. -/
def removeFile (fs : List String) (p : String) : List String :=
  if p ∈ fs then fs.filter (fun q => q ≠ p) else fs

/-- `QGISServerLayer.delete_qgis_layer` from `models.py` (lines 35-46): split
the extension off `base_layer_path`, then for every accepted extension remove
the sibling file when it exists. -/
def delete_qgis_layer (base_layer_path : String) (fs : List String) : List String :=
  QGISServerLayer.accepted_format.foldl
    (fun acc ext => removeFile acc ((splitext base_layer_path).1 ++ "." ++ ext)) fs

/-- The classes of uncaught Python exceptions the embedded handlers can
propagate back to the save call path. -/
inductive PyErr where
  | typeError
  | attributeError
  | nameError
  deriving DecidableEq, Repr

/-- A Python 2 value as far as `+` concatenation is concerned: a `str`, or a
non-string object such as an exception instance. -/
inductive PyVal where
  | str (s : String)
  | exc (e : String)
  deriving DecidableEq, Repr

/-- Python 2 `+` applied to a `str` and another value: concatenation when both
operands are strings, otherwise an uncaught `TypeError` (exception instances
define no string coercion for `+`). -/
def pyAdd : PyVal → PyVal → Except PyErr PyVal
  | PyVal.str a, PyVal.str b => Except.ok (PyVal.str (a ++ b))
  | _, _ => Except.error PyErr.typeError

/-- The argument of the `logger.debug` call in the `except IOError` branch of
the mirroring loop, `signals.py` lines 154-156:
`'Copying %s' % base_filename + '.' + ext + ' FAILED ' + e`.
`%` binds tighter than `+`, so this is a chain of four `+` operations whose
final right operand is the caught `IOError` instance `e`. -/
def copyFailLogMessage (base_filename ext : String) : Except PyErr PyVal := do
  let m1 ← pyAdd (PyVal.str ("Copying " ++ base_filename)) (PyVal.str ".")
  let m2 ← pyAdd m1 (PyVal.str ext)
  let m3 ← pyAdd m2 (PyVal.str " FAILED ")
  pyAdd m3 (PyVal.exc "IOError")

/-- Outcome of the spatial-reference probe in `signals.py` lines 172-200.
`success` is a completed `identify_epsg` (whose `srid` may still be `None`);
`srsException` is a raised `SRSException`, with `srsBound` recording whether
the local variable `srs` had already been assigned when it was raised;
`otherException` is any other exception from opening or probing the file. -/
inductive DetectOutcome where
  | success (srid : Option Int)
  | srsException (srsBound : Bool)
  | otherException
  deriving DecidableEq, Repr

/-- `'EPSG:{0}'.format(srs.srid)`: `srs.srid` is an integer or `None`. -/
def formatEpsg : Option Int → String
  | some n => "EPSG:" ++ toString n
  | none => "EPSG:None"

/-- The Layer fields this system reads and bulk-updates: spatial reference id
and the four bounding-box fields (coordinates modelled as integers; only
their flow, never arithmetic on them, is relevant here). -/
structure LayerFields where
  srid : String
  bbox_x0 : Int
  bbox_y0 : Int
  bbox_x1 : Int
  bbox_y1 : Int
  deriving DecidableEq, Repr

/-- A Link row as upserted by the handlers. -/
structure LinkRec where
  name : String
  extension : String
  mime : String
  link_type : String
  url : String
  deriving DecidableEq, Repr

/-- Symbolic model of `urljoin(settings.SITEURL, reverse(route, key))`: the
absolute URL is abstracted as the route name joined with its key. -/
def routeUrl (route key : String) : String :=
  route ++ "/" ++ key

/-- Environment of one `qgis_server_post_save` invocation: the triggering
Layer, its database neighbourhood, the filesystem, and the outcomes of the
external probes.  External calls that only produce log output (project-build
response body, style-catalog refresh, qml attachment cleanup, thumbnail task)
are modelled as total and are not part of the environment. -/
structure LayerEnv where
  /-- `settings.QGIS_SERVER_CONFIG['layer_directory']`. -/
  layerDir : String
  /-- `instance.get_base_file()[0].file.path`; `none` models the
  `AttributeError` of a Layer without a base file. -/
  baseFile : Option String
  /-- `base_layer_path` of an existing `QGISServerLayer` row for this Layer;
  `none` means `get_or_create` creates the row (`created = True`). -/
  existingRecord : Option String
  /-- Paths that exist on disk when the handler starts. -/
  fs : List String
  /-- Source paths whose `shutil.copy2` raises `IOError`. -/
  copyFails : List String
  /-- `is_qlr(geonode_layer_path)`. -/
  is_qlr : Bool
  /-- `is_vector(geonode_layer_path)`. -/
  is_vector : Bool
  /-- `is_raster(geonode_layer_path)`. -/
  is_raster : Bool
  /-- `instance.is_vector()` — the Layer's own predicate, used for the WFS
  link, distinct from the sniffed `is_vector_layer`. -/
  instanceIsVector : Bool
  /-- The Layer's stored fields after the refresh at line 168. -/
  layer : LayerFields
  /-- Outcome of the spatial-reference probe. -/
  detect : DetectOutcome
  /-- Envelope `(min_x, max_x, min_y, max_y)` produced by the EPSG:4326
  coordinate transform at lines 216-221 when it runs. -/
  transformedBbox : Int × Int × Int × Int
  /-- `qlr_obj.type` when the base file is a QLR. -/
  qlrType : String
  /-- The Layer's fields after the QLR-driven bulk update and refresh. -/
  qlrFields : LayerFields
  /-- `getattr(instance, 'overwrite', False)`: the transient attribute. -/
  overwriteAttr : Option Bool
  /-- `instance.name`. -/
  name : String
  /-- `instance.workspace`. -/
  workspace : String
  deriving DecidableEq, Repr

/-- Every persisted effect of one `qgis_server_post_save` invocation,
together with the uncaught exception, if any, that aborted it. Fields
positioned after the aborting point hold their empty defaults. -/
structure LayerResult where
  earlyReturn : Bool
  created : Bool
  /-- `base_layer_path` of the `QGISServerLayer` row when the handler ends. -/
  recordPath : String
  /-- `(source, destination)` of each `shutil.copy2` that ran and succeeded. -/
  copies : List (String × String)
  /-- The Layer's stored fields when the handler ends. -/
  layer : LayerFields
  links : List LinkRec
  projectBuilt : Bool
  projectOverwrite : Bool
  thumbnailQueued : Bool
  attributesSet : Bool
  /-- Paths passed to `update_xml`, in call order. -/
  xmlRewrites : List String
  /-- Whether the tile-cache `shutil.rmtree` was attempted. -/
  tileCacheRemoved : Bool
  error : Option PyErr
  deriving DecidableEq, Repr

/-- Destination of the `shutil.copy2` for extension `ext` in the mirroring
loop (`signals.py` lines 131-156): into the layer directory when the record
was just created, over the existing mirrored path prefix otherwise. -/
def mirrorDst (env : LayerEnv) (geonode_layer_path ext : String) : String :=
  if env.existingRecord.isNone then
    pathJoin env.layerDir (baseName ((splitext geonode_layer_path).1 ++ "." ++ ext))
  else
    qgis_layer_path_stem (env.existingRecord.getD "") ++ "." ++ ext

/-- The mirroring loop over the accepted extensions: for each extension whose
sibling exists, copy it; an `IOError` from the copy is caught, but building
the log message then applies `+` to a `str` and the exception, so the loop
aborts with that error.  Returns the successful copies and the first
uncaught error. -/
def mirrorFiles (fs copyFails : List String) (base_filename : String)
    (dstFor : String → String) :
    List String → List (String × String) × Option PyErr
  | [] => ([], none)
  | ext :: rest =>
    let src := base_filename ++ "." ++ ext
    if src ∈ fs then
      if src ∈ copyFails then
        match copyFailLogMessage base_filename ext with
        | Except.error e => ([], some e)
        | Except.ok _ => mirrorFiles fs copyFails base_filename dstFor rest
      else
        let r := mirrorFiles fs copyFails base_filename dstFor rest
        ((src, dstFor ext) :: r.1, r.2)
    else
      mirrorFiles fs copyFails base_filename dstFor rest

/-- Value of `skip_bound_transform` as set inside the `try` block of lines
172-200: a successful probe compares the formatted EPSG string with the
Layer's stored `srid`; an `SRSException` leaves it `False`; any other
exception forces it `True`.  The probe only runs for a sniffed vector or
raster dataset that is not a QLR. -/
def detectSkip (env : LayerEnv) : Bool :=
  if (env.is_vector || env.is_raster) && !env.is_qlr then
    match env.detect with
    | DetectOutcome.success srid => formatEpsg srid == env.layer.srid
    | DetectOutcome.srsException _ => false
    | DetectOutcome.otherException => true
  else false

/-- Whether the local variable `srs` is bound when the unguarded transform at
lines 215-229 would run: the probe must have run and must have assigned `srs`
before any `SRSException`.  (After `otherException` the transform is skipped,
so the flag is irrelevant there and set `true`.) -/
def detectSrsBound (env : LayerEnv) : Bool :=
  (env.is_vector || env.is_raster) && !env.is_qlr &&
    (match env.detect with
     | DetectOutcome.success _ => true
     | DetectOutcome.srsException b => b
     | DetectOutcome.otherException => true)

/-- `skip_bound_transform` after the QLR override at line 212. -/
def effSkip (env : LayerEnv) : Bool :=
  if env.is_qlr then true else detectSkip env

/-- The Link rows upserted by `qgis_server_post_save` (lines 234-418), in
order: zipped download, WMS, QGS, WFS when the Layer's own predicate says
vector, QLR, Tiles, GeoTIFF when the original extension qualifies, Legend. -/
def layerLinks (env : LayerEnv) (is_vector_layer : Bool) (original_ext : String) :
    List LinkRec :=
  let zipLink : LinkRec :=
    if is_vector_layer then
      { name := "Zipped Vector Files", extension := "zip", mime := "SHAPE-ZIP",
        link_type := "data", url := routeUrl "qgis_server:download-zip" env.name }
    else
      { name := "Zipped All Files", extension := "zip", mime := "ZIP",
        link_type := "data", url := routeUrl "qgis_server:download-zip" env.name }
  let wmsLink : LinkRec :=
    { name := "OGC WMS: " ++ env.workspace ++ " Service", extension := "html",
      mime := "text/html", link_type := "OGC:WMS",
      url := routeUrl "qgis_server:layer-request" env.name }
  let qgsLink : LinkRec :=
    { name := "QGIS project file (.qgs)", extension := "qgs",
      mime := "application/xml", link_type := "data",
      url := routeUrl "qgis_server:download-qgs" env.name }
  let wfsLinks : List LinkRec :=
    if env.instanceIsVector then
      [{ name := "OGC WFS: " ++ env.workspace ++ " Service", extension := "html",
         mime := "text/html", link_type := "OGC:WFS",
         url := routeUrl "qgis_server:layer-request" env.name }]
    else []
  let qlrLink : LinkRec :=
    { name := "QGIS layer file (.qlr)", extension := "qlr",
      mime := "application/xml", link_type := "data",
      url := routeUrl "qgis_server:download-qlr" env.name }
  let tilesLink : LinkRec :=
    { name := "Tiles", extension := "tiles", mime := "image/png",
      link_type := "image", url := routeUrl "tile_url_format" env.name }
  let geotiffLinks : List LinkRec :=
    if lastSplitDot original_ext ∈ QGISServerLayer.geotiff_format then
      [{ name := "GeoTIFF", extension := lastSplitDot original_ext,
         mime := "image/tiff", link_type := "image",
         url := routeUrl "qgis_server:geotiff" env.name }]
    else []
  let legendLink : LinkRec :=
    { name := "Legend", extension := "png", mime := "image/png",
      link_type := "image", url := routeUrl "qgis_server:legend" env.name }
  [zipLink, wmsLink, qgsLink] ++ wfsLinks ++ [qlrLink, tilesLink] ++
    geotiffLinks ++ [legendLink]

/-- The tail of `qgis_server_post_save` once mirroring succeeded and the
bounding-box step did not raise (lines 157-469): persist the record path,
apply the QLR override, transform bounds unless skipped, upsert the Links,
build the project, queue the thumbnail, extract attributes, rewrite the
sidecar XML files that exist, and invalidate the tile cache on overwrite. -/
def layerFinalResult (env : LayerEnv) (original_ext recordPath : String)
    (copies : List (String × String)) : LayerResult :=
  let layer1 := if env.is_qlr then env.qlrFields else env.layer
  let is_vector_layer := if env.is_qlr then env.qlrType == "vector" else env.is_vector
  let skip := effSkip env
  let layer2 :=
    if !skip then
      { layer1 with
        srid := "EPSG:4326",
        bbox_x0 := env.transformedBbox.1,
        bbox_x1 := env.transformedBbox.2.1,
        bbox_y0 := env.transformedBbox.2.2.1,
        bbox_y1 := env.transformedBbox.2.2.2 }
    else layer1
  let overwrite := env.overwriteAttr.getD false
  let fs1 := env.fs ++ copies.map Prod.snd
  let xmlPath1 := (splitext recordPath).1 ++ ".xml"
  let xmlPath2 := qgis_layer_path_stem recordPath ++ ".xml"
  { earlyReturn := false,
    created := env.existingRecord.isNone,
    recordPath := recordPath,
    copies := copies,
    layer := layer2,
    links := layerLinks env is_vector_layer original_ext,
    projectBuilt := true,
    projectOverwrite := overwrite,
    thumbnailQueued := true,
    attributesSet := true,
    xmlRewrites :=
      (if xmlPath1 ∈ fs1 then [xmlPath1] else []) ++
      (if xmlPath2 ∈ fs1 then [xmlPath2] else []),
    tileCacheRemoved := overwrite,
    error := none }

/-- `qgis_server_post_save` (`signals.py` lines 91-469) as a function from
its environment to its persisted effects and optional uncaught exception. -/
def layerHandler (env : LayerEnv) : LayerResult :=
  match env.baseFile with
  | none =>
    { earlyReturn := true, created := false,
      recordPath := env.existingRecord.getD "",
      copies := [], layer := env.layer, links := [],
      projectBuilt := false, projectOverwrite := false,
      thumbnailQueued := false, attributesSet := false,
      xmlRewrites := [], tileCacheRemoved := false, error := none }
  | some geonode_layer_path =>
    let base_filename := (splitext geonode_layer_path).1
    let original_ext := (splitext geonode_layer_path).2
    let mres := mirrorFiles env.fs env.copyFails base_filename
      (mirrorDst env geonode_layer_path) QGISServerLayer.accepted_format
    match mres.2 with
    | some e =>
      { earlyReturn := false, created := env.existingRecord.isNone,
        recordPath := env.existingRecord.getD "",
        copies := mres.1, layer := env.layer, links := [],
        projectBuilt := false, projectOverwrite := false,
        thumbnailQueued := false, attributesSet := false,
        xmlRewrites := [], tileCacheRemoved := false, error := some e }
    | none =>
      let recordPath :=
        if env.existingRecord.isNone then
          pathJoin env.layerDir ((splitext (baseName geonode_layer_path)).1 ++ original_ext)
        else env.existingRecord.getD ""
      if !effSkip env && !detectSrsBound env then
        { earlyReturn := false, created := env.existingRecord.isNone,
          recordPath := recordPath,
          copies := mres.1,
          layer := if env.is_qlr then env.qlrFields else env.layer,
          links := [],
          projectBuilt := false, projectOverwrite := false,
          thumbnailQueued := false, attributesSet := false,
          xmlRewrites := [], tileCacheRemoved := false,
          error := some PyErr.nameError }
      else
        layerFinalResult env original_ext recordPath mres.1

/-- Remove every occurrence of the four-character token `'{s}.'` (subdomain
sharding placeholder) from a character list, left to right, as Python
`tile_url.replace('{s}.', '')` does. -/
def stripSub : List Char → List Char
  | [] => []
  | a :: b :: c :: d :: rest =>
    if a = Char.ofNat 123 ∧ b = 's' ∧ c = Char.ofNat 125 ∧ d = '.' then
      stripSub rest
    else
      a :: stripSub (b :: c :: d :: rest)
  | l => l

/-- `tile_url.replace('{s}.', '')` from `signals.py` line 604. -/
def pyReplaceSubdomain (s : String) : String :=
  String.mk (stripSub s.toList)

/-- A `MapLayer` row: name, locality flag, layer group, visibility and the
OWS service URL. -/
structure MapLayerRow where
  name : String
  /-- The source's `local` field (`local` is reserved in Lean). -/
  isLocal : Bool
  group : String
  visibility : Bool
  ows_url : String
  deriving DecidableEq, Repr

/-- An entry of `instance.local_layers`: a Layer with its `alternate`
identifier and whether it has an associated `QGISServerLayer` record (the
reverse accessor `layer.qgis_layer` raises `QGISServerLayer.DoesNotExist`
when it does not). -/
structure LocalLayer where
  name : String
  alternate : String
  hasQgisLayer : Bool
  deriving DecidableEq, Repr

/-- Environment of one `qgis_server_post_save_map` invocation. -/
structure MapEnv where
  /-- All `MapLayer` rows of this Map. -/
  map_layers : List MapLayerRow
  /-- `instance.local_layers`. -/
  local_layers : List LocalLayer
  /-- Whether a `QGISServerMap` row already exists (`get_or_create` then
  reports `created = not existingMapRecord`). -/
  existingMapRecord : Bool
  /-- `getattr(instance, 'overwrite', False)`: the transient attribute. -/
  overwriteAttr : Option Bool
  /-- `instance.id`. -/
  mapId : Nat
  deriving DecidableEq, Repr

/-- Arguments of the `create_qgis_project` call for a Map. -/
structure MapProjectBuild where
  layers : List String
  overwrite : Bool
  basemap : String
  deriving DecidableEq, Repr

/-- Every persisted effect of one `qgis_server_post_save_map` invocation.
Effects that precede the uncaught exception, if any, are still recorded. -/
structure MapResult where
  /-- Per-row `MapLayer.objects.filter(pk).update(local=...)`, by name. -/
  updatedLocals : List (String × Bool)
  links : List LinkRec
  bboxUpdated : Bool
  projectBuild : Option MapProjectBuild
  /-- Names of the layers whose styles were pushed into the map project. -/
  styledLayers : List String
  thumbnailQueued : Bool
  error : Option PyErr
  deriving DecidableEq, Repr

/-- `qgis_server_post_save_map` (`signals.py` lines 482-652): update each
MapLayer's `local` flag, collect the working list of local layers that carry
a `QGISServerLayer` record, exit early when it is empty, upsert the three
map Links, update the map bounds, resolve the background basemap (`.first()`
yields `None` when no visible background row exists, so reading `.ows_url`
raises an uncaught `AttributeError`), build the project with the effective
overwrite flag, push styles and queue the thumbnail. -/
def mapHandler (env : MapEnv) : MapResult :=
  let local_layers_name := env.local_layers.map LocalLayer.alternate
  let updatedLocals := env.map_layers.map
    (fun ml => (ml.name, decide (ml.name ∈ local_layers_name)))
  let layers := env.local_layers.filter LocalLayer.hasQgisLayer
  if layers = [] then
    { updatedLocals := updatedLocals, links := [], bboxUpdated := false,
      projectBuild := none, styledLayers := [], thumbnailQueued := false,
      error := none }
  else
    let links : List LinkRec :=
      [{ name := "Download Data Layers", extension := "html",
         mime := "text/html", link_type := "data",
         url := routeUrl "map_download" (toString env.mapId) },
       { name := "Download Web Map Context", extension := "wmc.xml",
         mime := "application/xml", link_type := "data",
         url := routeUrl "map_wmc" (toString env.mapId) },
       { name := "QGIS layer file (.qlr)", extension := "qlr",
         mime := "application/xml", link_type := "data",
         url := routeUrl "map_download_qlr" (toString env.mapId) }]
    match (env.map_layers.filter
        (fun ml => ml.group == "background" && ml.visibility)).head? with
    | none =>
      { updatedLocals := updatedLocals, links := links, bboxUpdated := true,
        projectBuild := none, styledLayers := [], thumbnailQueued := false,
        error := some PyErr.attributeError }
    | some basemap_maplayer =>
      let tile_url := pyReplaceSubdomain basemap_maplayer.ows_url
      let overwrite := !env.existingMapRecord || env.overwriteAttr.getD false
      { updatedLocals := updatedLocals, links := links, bboxUpdated := true,
        projectBuild := some
          { layers := layers.map LocalLayer.name,
            overwrite := overwrite, basemap := tile_url },
        styledLayers := layers.map LocalLayer.name,
        thumbnailQueued := true,
        error := none }

/-- `qgis_server_pre_save_maplayer` (`signals.py` lines 472-479): when some
Layer's `alternate` equals the MapLayer's name, mark the in-memory instance
local; when the lookup raises `Layer.DoesNotExist`, change nothing. -/
def qgis_server_pre_save_maplayer (layerAlternates : List String)
    (ml : MapLayerRow) : MapLayerRow :=
  if ml.name ∈ layerAlternates then { ml with isLocal := true } else ml

/-- `qgis_server_layer_post_delete` (`signals.py` lines 62-65): the cleanup
hook just invokes the record's own file-deletion operation. -/
def qgis_server_layer_post_delete (base_layer_path : String)
    (fs : List String) : List String :=
  delete_qgis_layer base_layer_path fs

/-- A Layer already stored in WGS84. -/
def layerWGS84 : LayerFields :=
  { srid := "EPSG:4326", bbox_x0 := 0, bbox_y0 := 0, bbox_x1 := 10, bbox_y1 := 10 }

/-- A vector Layer save in which the `.dbf` sibling exists and its copy
raises `IOError` (the record already exists, so this is a re-save). -/
def envCopyFail : LayerEnv :=
  { layerDir := "/qgis", baseFile := some "/uploads/data.shp",
    existingRecord := some "/qgis/data.shp",
    fs := ["/uploads/data.shp", "/uploads/data.dbf"],
    copyFails := ["/uploads/data.dbf"],
    is_qlr := false, is_vector := true, is_raster := false,
    instanceIsVector := true, layer := layerWGS84,
    detect := DetectOutcome.success (some 4326),
    transformedBbox := (0, 0, 0, 0), qlrType := "", qlrFields := layerWGS84,
    overwriteAttr := none, name := "data", workspace := "geonode" }

/-- A Layer save with a failing `.shx` copy, used to exhibit the Layer
handler's uncaught `TypeError` path. -/
def envLayerRaise : LayerEnv :=
  { layerDir := "/qgis", baseFile := some "/uploads/roads.shp",
    existingRecord := none,
    fs := ["/uploads/roads.shp", "/uploads/roads.shx"],
    copyFails := ["/uploads/roads.shx"],
    is_qlr := false, is_vector := true, is_raster := false,
    instanceIsVector := true, layer := layerWGS84,
    detect := DetectOutcome.success (some 4326),
    transformedBbox := (0, 0, 0, 0), qlrType := "", qlrFields := layerWGS84,
    overwriteAttr := none, name := "roads", workspace := "geonode" }

/-- A re-saved Layer whose original upload sits in `/uploads` while its
mirrored copy sits in `/qgis`; sidecar XML files exist in both places. -/
def envSidecar : LayerEnv :=
  { layerDir := "/qgis", baseFile := some "/uploads/data.shp",
    existingRecord := some "/qgis/data.shp",
    fs := ["/uploads/data.shp", "/uploads/data.xml", "/qgis/data.shp",
           "/qgis/data.xml"],
    copyFails := [],
    is_qlr := false, is_vector := true, is_raster := false,
    instanceIsVector := true, layer := layerWGS84,
    detect := DetectOutcome.success (some 4326),
    transformedBbox := (0, 0, 0, 0), qlrType := "", qlrFields := layerWGS84,
    overwriteAttr := none, name := "data", workspace := "geonode" }

/-- A fresh raster Layer uploaded as `.tif`. -/
def envGeoTiff : LayerEnv :=
  { layerDir := "/qgis", baseFile := some "/uploads/raster.tif",
    existingRecord := none,
    fs := ["/uploads/raster.tif"],
    copyFails := [],
    is_qlr := false, is_vector := false, is_raster := true,
    instanceIsVector := false, layer := layerWGS84,
    detect := DetectOutcome.success (some 4326),
    transformedBbox := (0, 0, 0, 0), qlrType := "", qlrFields := layerWGS84,
    overwriteAttr := none, name := "raster1", workspace := "geonode" }

/-- A fresh vector Layer uploaded as `.shp`. -/
def envShapefile : LayerEnv :=
  { layerDir := "/qgis", baseFile := some "/uploads/parcels.shp",
    existingRecord := none,
    fs := ["/uploads/parcels.shp"],
    copyFails := [],
    is_qlr := false, is_vector := true, is_raster := false,
    instanceIsVector := true, layer := layerWGS84,
    detect := DetectOutcome.success (some 4326),
    transformedBbox := (0, 0, 0, 0), qlrType := "", qlrFields := layerWGS84,
    overwriteAttr := none, name := "parcels", workspace := "geonode" }

/-- A re-save whose incoming base file name (`newname`) differs from the one
recorded at creation time (`data`). -/
def envRenamed : LayerEnv :=
  { layerDir := "/qgis", baseFile := some "/uploads/newname.shp",
    existingRecord := some "/qgis/data.shp",
    fs := ["/uploads/newname.shp"],
    copyFails := [],
    is_qlr := false, is_vector := true, is_raster := false,
    instanceIsVector := true, layer := layerWGS84,
    detect := DetectOutcome.success (some 4326),
    transformedBbox := (0, 0, 0, 0), qlrType := "", qlrFields := layerWGS84,
    overwriteAttr := none, name := "data", workspace := "geonode" }

/-- A vector Layer whose detected EPSG (4326) equals its stored `srid`. -/
def envSridMatch : LayerEnv :=
  { layerDir := "/qgis", baseFile := some "/uploads/data.shp",
    existingRecord := some "/qgis/data.shp",
    fs := ["/uploads/data.shp"],
    copyFails := [],
    is_qlr := false, is_vector := true, is_raster := false,
    instanceIsVector := true, layer := layerWGS84,
    detect := DetectOutcome.success (some 4326),
    transformedBbox := (77, 88, 99, 111), qlrType := "", qlrFields := layerWGS84,
    overwriteAttr := none, name := "data", workspace := "geonode" }

/-- A Map with one attached MapLayer row but whose only local layer carries
no `QGISServerLayer` record, so the working list is empty. -/
def envMapEmpty : MapEnv :=
  { map_layers := [{ name := "pending", isLocal := true, group := "overlay",
                     visibility := true, ows_url := "http://x/pending" }],
    local_layers := [{ name := "pending", alternate := "pending",
                       hasQgisLayer := false }],
    existingMapRecord := false, overwriteAttr := none, mapId := 3 }

/-- A Map with a working layer but no visible background MapLayer row. -/
def envMapNoBackground : MapEnv :=
  { map_layers := [{ name := "a", isLocal := true, group := "overlay",
                     visibility := true, ows_url := "http://x/a" }],
    local_layers := [{ name := "a", alternate := "a", hasQgisLayer := true }],
    existingMapRecord := true, overwriteAttr := none, mapId := 7 }

/-- The first save of a complete Map: visible background row present, no
`QGISServerMap` record yet, transient overwrite attribute explicitly false. -/
def envMapFirstSave : MapEnv :=
  { map_layers := [{ name := "a", isLocal := true, group := "overlay",
                     visibility := true, ows_url := "http://x/a" },
                   { name := "osm", isLocal := false, group := "background",
                     visibility := true, ows_url := "http://tile.example/osm" }],
    local_layers := [{ name := "a", alternate := "a", hasQgisLayer := true }],
    existingMapRecord := false, overwriteAttr := some false, mapId := 9 }

theorem copyFailLogMessage_eq (base_filename ext : String) :
    copyFailLogMessage base_filename ext = Except.error PyErr.typeError := rfl

theorem mirrorFiles_err (fs cf : List String) (bf : String) (d : String → String) :
    ∀ (l : List String) (e : PyErr), (mirrorFiles fs cf bf d l).2 = some e →
      e = PyErr.typeError ∧
        ∃ ext, ext ∈ l ∧ (bf ++ "." ++ ext) ∈ fs ∧ (bf ++ "." ++ ext) ∈ cf := by
  intro l
  induction l with
  | nil =>
    intro e h
    simp [mirrorFiles] at h
  | cons ext rest ih =>
    intro e h
    simp only [mirrorFiles] at h
    by_cases h1 : (bf ++ "." ++ ext) ∈ fs
    · by_cases h2 : (bf ++ "." ++ ext) ∈ cf
      · rw [if_pos h1, if_pos h2, copyFailLogMessage_eq] at h
        simp at h
        refine ⟨h.symm, ext, List.mem_cons_self ext rest, h1, h2⟩
      · rw [if_pos h1, if_neg h2] at h
        simp at h
        obtain ⟨he, ext2, hmem, hfs, hcf⟩ := ih e h
        exact ⟨he, ext2, List.mem_cons_of_mem _ hmem, hfs, hcf⟩
    · rw [if_neg h1] at h
      obtain ⟨he, ext2, hmem, hfs, hcf⟩ := ih e h
      exact ⟨he, ext2, List.mem_cons_of_mem _ hmem, hfs, hcf⟩

theorem mem_removeFile (fs : List String) (p q : String) :
    p ∈ removeFile fs q ↔ p ∈ fs ∧ p ≠ q := by
  unfold removeFile
  by_cases h : q ∈ fs
  · rw [if_pos h]
    simp [List.mem_filter]
  · rw [if_neg h]
    constructor
    · intro hp
      exact ⟨hp, fun hpq => h (hpq ▸ hp)⟩
    · intro hp
      exact hp.1

theorem removeFile_not_mem (fs : List String) (q : String) (h : q ∉ fs) :
    removeFile fs q = fs := by
  unfold removeFile
  exact if_neg h

theorem foldl_removeFile_mem (f : String → String) :
    ∀ (l : List String) (fs : List String) (p : String),
      p ∈ l.foldl (fun acc e => removeFile acc (f e)) fs ↔
        p ∈ fs ∧ ∀ e ∈ l, p ≠ f e := by
  intro l
  induction l with
  | nil => simp
  | cons e t ih =>
    intro fs p
    simp only [List.foldl_cons]
    rw [ih, mem_removeFile]
    constructor
    · rintro ⟨⟨hp, hne⟩, hall⟩
      refine ⟨hp, ?_⟩
      intro x hx
      rcases List.mem_cons.mp hx with h1 | h2
      · exact h1 ▸ hne
      · exact hall x h2
    · rintro ⟨hp, hall⟩
      exact ⟨⟨hp, hall e (List.mem_cons_self e t)⟩,
        fun x hx => hall x (List.mem_cons_of_mem _ hx)⟩

theorem foldl_removeFile_id (f : String → String) :
    ∀ (l : List String) (fs : List String), (∀ e ∈ l, f e ∉ fs) →
      l.foldl (fun acc e => removeFile acc (f e)) fs = fs := by
  intro l
  induction l with
  | nil => intro fs _; rfl
  | cons e t ih =>
    intro fs h
    simp only [List.foldl_cons]
    rw [removeFile_not_mem fs (f e) (h e (List.mem_cons_self e t))]
    exact ih fs (fun x hx => h x (List.mem_cons_of_mem _ hx))

theorem layerHandler_ok_eq (env : LayerEnv) (p : String)
    (hb : env.baseFile = some p) (he : (layerHandler env).error = none) :
    layerHandler env =
      layerFinalResult env (splitext p).2
        (if env.existingRecord.isNone then
           pathJoin env.layerDir ((splitext (baseName p)).1 ++ (splitext p).2)
         else env.existingRecord.getD "")
        (mirrorFiles env.fs env.copyFails (splitext p).1
          (mirrorDst env p) QGISServerLayer.accepted_format).1 := by
  simp only [layerHandler, hb] at he ⊢
  rcases hm : (mirrorFiles env.fs env.copyFails (splitext p).1
      (mirrorDst env p) QGISServerLayer.accepted_format).2 with _ | e
  · rw [hm] at he
    simp only [] at he ⊢
    by_cases hc : (!effSkip env && !detectSrsBound env) = true
    · rw [if_pos hc] at he
      simp at he
    · rw [if_neg hc]
  · rw [hm] at he
    simp at he

/-- Claim C10: the MapLayer pre-save locality hook mutates at most the
in-memory `local` flag, and only monotonically — the flag after the hook is
the old flag OR'd with whether some Layer's `alternate` equals the MapLayer's
name, and every other field is unchanged; in particular the hook never turns
`local` from true to false. -/
theorem C10_theorem (alts : List String) (ml : MapLayerRow) :
    (qgis_server_pre_save_maplayer alts ml).isLocal
        = (ml.isLocal || decide (ml.name ∈ alts))
    ∧ (qgis_server_pre_save_maplayer alts ml).name = ml.name
    ∧ (qgis_server_pre_save_maplayer alts ml).group = ml.group
    ∧ (qgis_server_pre_save_maplayer alts ml).visibility = ml.visibility
    ∧ (qgis_server_pre_save_maplayer alts ml).ows_url = ml.ows_url := by
  unfold qgis_server_pre_save_maplayer
  by_cases h : ml.name ∈ alts
  · simp [h]
  · simp [h]

/-- Claim C8: a Map whose working layer list (local layers carrying a
render-backend record) is empty makes the post-save handler return early:
no Links, no project build, no thumbnail, and no error. -/
theorem C8_theorem (env : MapEnv)
    (h : env.local_layers.filter LocalLayer.hasQgisLayer = []) :
    (mapHandler env).links = [] ∧ (mapHandler env).projectBuild = none
    ∧ (mapHandler env).thumbnailQueued = false
    ∧ (mapHandler env).error = none := by
  unfold mapHandler
  rw [h]
  simp

/-- Claim C8, witness: the early exit on a concrete Map whose only local
layer lacks a render-backend record. -/
theorem C8_witness :
    (mapHandler envMapEmpty).links = [] ∧
    (mapHandler envMapEmpty).projectBuild = none ∧
    (mapHandler envMapEmpty).thumbnailQueued = false ∧
    (mapHandler envMapEmpty).error = none :=
  C8_theorem envMapEmpty (by decide)

/-- Claim C9: the overwrite flag passed to the Map project build equals the
Map's transient overwrite attribute (false when absent) OR'd with the
creation of the render-backend Map record; in particular, when no record
existed before this save the flag is true. -/
theorem C9_theorem (env : MapEnv) (pb : MapProjectBuild)
    (h : (mapHandler env).projectBuild = some pb) :
    pb.overwrite = (!env.existingMapRecord || env.overwriteAttr.getD false)
    ∧ (env.existingMapRecord = false → pb.overwrite = true) := by
  unfold mapHandler at h
  by_cases hl : env.local_layers.filter LocalLayer.hasQgisLayer = []
  · rw [if_pos hl] at h
    simp at h
  · rw [if_neg hl] at h
    rcases hbm : (env.map_layers.filter
        (fun ml => ml.group == "background" && ml.visibility)).head? with _ | bm
    · rw [hbm] at h
      simp at h
    · rw [hbm] at h
      simp only [] at h
      have hpb : pb =
          { layers := (env.local_layers.filter LocalLayer.hasQgisLayer).map LocalLayer.name,
            overwrite := !env.existingMapRecord || env.overwriteAttr.getD false,
            basemap := pyReplaceSubdomain bm.ows_url } := by
        injection h with h1
        exact h1.symm
      constructor
      · rw [hpb]
      · intro hrec
        rw [hpb]
        simp [hrec]

/-- Claim C9, witness: the first save of a concrete complete Map, with the
transient overwrite attribute explicitly false, still builds with
overwrite = true. -/
theorem C9_witness :
    ({ layers := ["a"], overwrite := true,
       basemap := "http://tile.example/osm" } : MapProjectBuild).overwrite
        = (!envMapFirstSave.existingMapRecord
            || envMapFirstSave.overwriteAttr.getD false)
    ∧ ({ layers := ["a"], overwrite := true,
         basemap := "http://tile.example/osm" } : MapProjectBuild).overwrite = true := by
  have h := C9_theorem envMapFirstSave
    { layers := ["a"], overwrite := true, basemap := "http://tile.example/osm" }
    (by decide)
  exact ⟨h.1, h.2 rfl⟩

/-- Claim C5: the file-deletion operation of the render-backend Layer record
removes, for every accepted extension, the sibling file of `base_layer_path`
when it exists; it is idempotent — a second run is the identity — and it
touches no other file. -/
theorem C5_theorem (blp : String) (fs : List String) :
    (∀ ext ∈ QGISServerLayer.accepted_format,
       ((splitext blp).1 ++ "." ++ ext) ∉ delete_qgis_layer blp fs)
    ∧ delete_qgis_layer blp (delete_qgis_layer blp fs) = delete_qgis_layer blp fs
    ∧ (∀ p ∈ fs, (∀ ext ∈ QGISServerLayer.accepted_format,
         p ≠ (splitext blp).1 ++ "." ++ ext) → p ∈ delete_qgis_layer blp fs) := by
  refine ⟨?_, ?_, ?_⟩
  · intro ext hext hmem
    rw [delete_qgis_layer,
      foldl_removeFile_mem (fun e => (splitext blp).1 ++ "." ++ e)] at hmem
    exact hmem.2 ext hext rfl
  · unfold delete_qgis_layer
    apply foldl_removeFile_id
    intro e he hmem
    rw [foldl_removeFile_mem (fun e => (splitext blp).1 ++ "." ++ e)] at hmem
    exact hmem.2 e he rfl
  · intro p hp hne
    rw [delete_qgis_layer,
      foldl_removeFile_mem (fun e => (splitext blp).1 ++ "." ++ e)]
    exact ⟨hp, hne⟩

/-- Claim C5, witness: deleting a shapefile record's files removes the
targeted siblings, leaves the unrelated file, and a second deletion is a
no-op. -/
theorem C5_witness :
    "/qgis/data.shp" ∉
      delete_qgis_layer "/qgis/data.shp"
        ["/qgis/data.shp", "/qgis/data.dbf", "/other.txt"]
    ∧ delete_qgis_layer "/qgis/data.shp"
        (delete_qgis_layer "/qgis/data.shp"
          ["/qgis/data.shp", "/qgis/data.dbf", "/other.txt"])
      = delete_qgis_layer "/qgis/data.shp"
          ["/qgis/data.shp", "/qgis/data.dbf", "/other.txt"]
    ∧ "/other.txt" ∈
        delete_qgis_layer "/qgis/data.shp"
          ["/qgis/data.shp", "/qgis/data.dbf", "/other.txt"] := by
  have h := C5_theorem "/qgis/data.shp" ["/qgis/data.shp", "/qgis/data.dbf", "/other.txt"]
  refine ⟨?_, h.2.1, h.2.2 "/other.txt" (by decide) (by decide)⟩
  have hs := h.1 "shp" (by decide)
  exact hs

/-- Claim C6: when the detected EPSG string equals the Layer's stored
`srid` exactly (vector or raster dataset, not a QLR), `skip_bound_transform`
is set and the handler leaves the Layer's `srid` and all four bbox fields
unchanged. -/
theorem C6_theorem (env : LayerEnv) (c : Option Int)
    (hq : env.is_qlr = false)
    (hvr : env.is_vector = true ∨ env.is_raster = true)
    (hd : env.detect = DetectOutcome.success c)
    (hs : formatEpsg c = env.layer.srid) :
    effSkip env = true ∧ (layerHandler env).layer = env.layer := by
  have hskip : effSkip env = true := by
    unfold effSkip detectSkip
    rw [hq, hd]
    have hcond : (env.is_vector || env.is_raster) = true := by
      rcases hvr with h | h
      · rw [h]; simp
      · rw [h]; simp
    simp [hcond, hs]
  refine ⟨hskip, ?_⟩
  unfold layerHandler
  rcases hb : env.baseFile with _ | p
  · rfl
  · simp only []
    rcases hm : (mirrorFiles env.fs env.copyFails (splitext p).1
        (mirrorDst env p) QGISServerLayer.accepted_format).2 with _ | e
    · simp only []
      have hc : (!effSkip env && !detectSrsBound env) = false := by
        rw [hskip]
        simp
      rw [hc]
      simp only [Bool.false_eq_true, if_false]
      unfold layerFinalResult
      simp only [hq, hskip]
      simp
    · rfl

/-- Claim C6, witness: a vector layer stored as EPSG:4326 whose dataset
also resolves to EPSG 4326 keeps its srid and bbox through the handler. -/
theorem C6_witness :
    effSkip envSridMatch = true
    ∧ (layerHandler envSridMatch).layer = envSridMatch.layer :=
  C6_theorem envSridMatch (some 4326) rfl (Or.inl rfl) rfl rfl

/-- Claim C4: when a render-backend Layer record already exists, the handler
leaves its `base_layer_path` unchanged whatever the incoming base file is;
the field is assigned only by the invocation that creates the record, where
it becomes the layer directory joined with the upload's leaf name and
original extension. -/
theorem C4_theorem (env : LayerEnv) (blp : String) :
    (env.existingRecord = some blp → (layerHandler env).recordPath = blp)
    ∧ (∀ p, env.baseFile = some p → env.existingRecord = none →
        (layerHandler env).error = none →
        (layerHandler env).recordPath
          = pathJoin env.layerDir ((splitext (baseName p)).1 ++ (splitext p).2)) := by
  constructor
  · intro hr
    unfold layerHandler
    rcases hb : env.baseFile with _ | p
    · simp [hr]
    · simp only []
      rcases hm : (mirrorFiles env.fs env.copyFails (splitext p).1
          (mirrorDst env p) QGISServerLayer.accepted_format).2 with _ | e
      · simp only []
        have hio : env.existingRecord.isNone = false := by
          rw [hr]
          rfl
        by_cases hc : (!effSkip env && !detectSrsBound env) = true
        · rw [if_pos hc]
          simp [hio, hr]
        · rw [if_neg hc]
          unfold layerFinalResult
          simp [hio, hr]
      · simp [hr]
  · intro p hb hrec herr
    rw [layerHandler_ok_eq env p hb herr]
    unfold layerFinalResult
    simp [hrec]

/-- Claim C4, witness: a re-save whose upload is now named `newname.shp`
keeps the record path chosen at creation time (`/qgis/data.shp`); a creating
save assigns the path derived from the upload name. -/
theorem C4_witness :
    (layerHandler envRenamed).recordPath = "/qgis/data.shp"
    ∧ (layerHandler envGeoTiff).recordPath
        = pathJoin envGeoTiff.layerDir
            ((splitext (baseName "/uploads/raster.tif")).1
              ++ (splitext "/uploads/raster.tif").2) := by
  constructor
  · exact (C4_theorem envRenamed "/qgis/data.shp").1 rfl
  · exact (C4_theorem envGeoTiff "/x").2 "/uploads/raster.tif" rfl rfl (by decide)

/-- Claim C2 (code bug): when the `.dbf` sibling exists and its copy raises
`IOError`, the `except IOError` branch itself raises an uncaught `TypeError`
(its log message concatenates a `str` with the exception object), so the
handler aborts: the earlier `.shp` copy persisted, but no Link, thumbnail or
sidecar work happens and the remaining extensions are not processed. -/
theorem C2_theorem :
    (layerHandler envCopyFail).error = some PyErr.typeError
    ∧ (layerHandler envCopyFail).copies = [("/uploads/data.shp", "/qgis/data.shp")]
    ∧ (layerHandler envCopyFail).links = []
    ∧ (layerHandler envCopyFail).thumbnailQueued = false
    ∧ (layerHandler envCopyFail).xmlRewrites = [] := by
  decide

/-- Claim C1 (counterexample): the handlers do raise — saving a Map whose
working list is nonempty but which has no visible background MapLayer makes
the Map handler propagate an `AttributeError` (from `None.ows_url`), and a
Layer save with one failing sibling copy makes the Layer handler propagate a
`TypeError` — refuting that every failure is surfaced only through logs. -/
theorem C1_counterexample :
    (mapHandler envMapNoBackground).error = some PyErr.attributeError
    ∧ (layerHandler envLayerRaise).error = some PyErr.typeError := by
  decide

/-- Claim C1 (amended): the handlers absorb failures through log output
except for the unguarded paths — the Layer handler raises only a `TypeError`
when some existing accepted-format sibling's copy fails, or a `NameError`
when the bounding-box transform runs with the spatial-reference variable
unbound; the Map handler raises only an `AttributeError`, exactly when its
working layer list is nonempty and no visible background MapLayer exists. -/
theorem C1_theorem (envL : LayerEnv) (envM : MapEnv) :
    (∀ e, (layerHandler envL).error = some e →
      (e = PyErr.typeError ∧ ∃ p ext, envL.baseFile = some p
        ∧ ext ∈ QGISServerLayer.accepted_format
        ∧ ((splitext p).1 ++ "." ++ ext) ∈ envL.fs
        ∧ ((splitext p).1 ++ "." ++ ext) ∈ envL.copyFails)
      ∨ (e = PyErr.nameError ∧ envL.is_qlr = false ∧ effSkip envL = false
        ∧ detectSrsBound envL = false))
    ∧ (∀ e, (mapHandler envM).error = some e →
      e = PyErr.attributeError
      ∧ envM.local_layers.filter LocalLayer.hasQgisLayer ≠ []
      ∧ envM.map_layers.filter
          (fun ml => ml.group == "background" && ml.visibility) = []) := by
  constructor
  · intro e he
    unfold layerHandler at he
    rcases hb : envL.baseFile with _ | p
    · rw [hb] at he
      simp at he
    · rw [hb] at he
      simp only [] at he
      rcases hm : (mirrorFiles envL.fs envL.copyFails (splitext p).1
          (mirrorDst envL p) QGISServerLayer.accepted_format).2 with _ | e2
      · rw [hm] at he
        simp only [] at he
        by_cases hc : (!effSkip envL && !detectSrsBound envL) = true
        · rw [if_pos hc] at he
          simp at he
          simp only [Bool.and_eq_true, Bool.not_eq_true'] at hc
          have hql : envL.is_qlr = false := by
            cases hqc : envL.is_qlr
            · rfl
            · have := hc.1
              unfold effSkip at this
              rw [hqc] at this
              simp at this
          right
          exact ⟨he.symm, hql, hc.1, hc.2⟩
        · rw [if_neg hc] at he
          unfold layerFinalResult at he
          simp at he
      · rw [hm] at he
        simp only [] at he
        simp at he
        obtain ⟨het, ext, hmem, hfs, hcf⟩ := mirrorFiles_err _ _ _ _ _ e2 hm
        left
        exact ⟨he.symm.trans het, p, ext, rfl, hmem, hfs, hcf⟩
  · intro e he
    unfold mapHandler at he
    by_cases hl : envM.local_layers.filter LocalLayer.hasQgisLayer = []
    · rw [if_pos hl] at he
      simp at he
    · rw [if_neg hl] at he
      rcases hbm : (envM.map_layers.filter
          (fun ml => ml.group == "background" && ml.visibility)).head? with _ | bm
      · rw [hbm] at he
        simp only [] at he
        simp at he
        have hfe : envM.map_layers.filter
            (fun ml => ml.group == "background" && ml.visibility) = [] := by
          rcases hx : envM.map_layers.filter
              (fun ml => ml.group == "background" && ml.visibility) with _ | ⟨x, xs⟩
          · exact hx
          · rw [hx] at hbm
            simp at hbm
        exact ⟨he.symm, hl, hfe⟩
      · rw [hbm] at he
        simp at he

/-- Claim C1 (amended), witness: the amended characterization applied to the
two concrete raising runs — the copy-failure Layer save and the
background-less Map save. -/
theorem C1_witness :
    (layerHandler envLayerRaise).error = some PyErr.typeError
    ∧ (mapHandler envMapNoBackground).error = some PyErr.attributeError
    ∧ envMapNoBackground.map_layers.filter
        (fun ml => ml.group == "background" && ml.visibility) = [] := by
  have hL := (C1_theorem envLayerRaise envMapNoBackground).1
    PyErr.typeError (by decide)
  have hM := (C1_theorem envLayerRaise envMapNoBackground).2
    PyErr.attributeError (by decide)
  exact ⟨by decide, by decide, hM.2.2⟩

/-- Claim C7 (counterexample): with the original upload at
`/uploads/data.shp` and the mirrored record at `/qgis/data.shp`, sidecar XML
files existing at both locations, the handler rewrites the mirrored sidecar
twice and never touches `/uploads/data.xml` — refuting that the sidecar next
to the original uploaded base file is rewritten. -/
theorem C7_counterexample :
    (layerHandler envSidecar).xmlRewrites = ["/qgis/data.xml", "/qgis/data.xml"]
    ∧ "/uploads/data.xml" ∈ envSidecar.fs
    ∧ "/uploads/data.xml" ∉ (layerHandler envSidecar).xmlRewrites := by
  decide

theorem layerFinalResult_xml (env : LayerEnv) (oe rp : String)
    (cs : List (String × String)) :
    (∀ q ∈ (layerFinalResult env oe rp cs).xmlRewrites,
       q = (splitext rp).1 ++ ".xml"
       ∧ (q ∈ env.fs ∨ q ∈ cs.map Prod.snd))
    ∧ (layerFinalResult env oe rp cs).xmlRewrites.length ≤ 2 := by
  unfold layerFinalResult
  simp only [qgis_layer_path_stem]
  constructor
  · intro q hq
    simp only [List.mem_append] at hq
    by_cases hc : ((splitext rp).1 ++ ".xml") ∈ env.fs
        ∨ ((splitext rp).1 ++ ".xml") ∈ cs.map Prod.snd
    · rw [if_pos hc] at hq
      have hq2 : q = (splitext rp).1 ++ ".xml" := by
        rcases hq with h | h
        · simpa using h
        · simpa using h
      exact ⟨hq2, hq2 ▸ hc⟩
    · rw [if_neg hc] at hq
      simp at hq
  · by_cases hc : ((splitext rp).1 ++ ".xml") ∈ env.fs ++ cs.map Prod.snd
    · rw [if_pos hc]
      simp
    · rw [if_neg hc]
      simp

/-- Claim C7 (amended): both sidecar candidates the handler rewrites are
computed from the record's mirrored `base_layer_path` (its extension split
off, plus `.xml`) — so they are the same mirrored render-directory sidecar,
rewritten at most twice and only when it already exists (on disk at handler
start or just produced by the mirroring copies); the sidecar next to the
original uploaded base file is not among the rewritten paths unless it
coincides with the mirrored one. -/
theorem C7_theorem (env : LayerEnv) (p : String)
    (hb : env.baseFile = some p) (he : (layerHandler env).error = none) :
    (∀ q ∈ (layerHandler env).xmlRewrites,
       q = (splitext (layerHandler env).recordPath).1 ++ ".xml"
       ∧ (q ∈ env.fs ∨ q ∈ (layerHandler env).copies.map Prod.snd))
    ∧ (layerHandler env).xmlRewrites.length ≤ 2 := by
  rw [layerHandler_ok_eq env p hb he]
  exact layerFinalResult_xml env (splitext p).2 _ _

/-- Claim C7 (amended), witness: on the concrete two-sidecar run, the
rewritten path is the mirrored record's sidecar and it already existed. -/
theorem C7_witness :
    ("/qgis/data.xml"
        = (splitext (layerHandler envSidecar).recordPath).1 ++ ".xml"
      ∧ ("/qgis/data.xml" ∈ envSidecar.fs
         ∨ "/qgis/data.xml" ∈ (layerHandler envSidecar).copies.map Prod.snd))
    ∧ (layerHandler envSidecar).xmlRewrites.length ≤ 2 := by
  have h := C7_theorem envSidecar "/uploads/data.shp" rfl (by decide)
  exact ⟨h.1 "/qgis/data.xml" (by decide), h.2⟩

theorem append3_ne_geotiff (a w b : String) (ha : a.length + b.length > 7) :
    a ++ w ++ b ≠ "GeoTIFF" := by
  intro h
  have hl := congrArg String.length h
  rw [String.length_append, String.length_append] at hl
  have h7 : ("GeoTIFF" : String).length = 7 := rfl
  rw [h7] at hl
  omega

theorem layerFinalResult_fields (env : LayerEnv) (oe rp : String)
    (cs : List (String × String)) :
    (layerFinalResult env oe rp cs).links
        = layerLinks env
            (if env.is_qlr then env.qlrType == "vector" else env.is_vector) oe
    ∧ (layerFinalResult env oe rp cs).thumbnailQueued = true
    ∧ (layerFinalResult env oe rp cs).attributesSet = true :=
  ⟨rfl, rfl, rfl⟩

theorem layerLinks_geotiff (env : LayerEnv) (iv : Bool) (oe : String) :
    (lastSplitDot oe ∈ QGISServerLayer.geotiff_format →
      ({ name := "GeoTIFF", extension := lastSplitDot oe, mime := "image/tiff",
         link_type := "image",
         url := routeUrl "qgis_server:geotiff" env.name } : LinkRec)
        ∈ layerLinks env iv oe)
    ∧ (lastSplitDot oe ∉ QGISServerLayer.geotiff_format →
      ∀ l ∈ layerLinks env iv oe, l.name ≠ "GeoTIFF")
    ∧ ({ name := "Legend", extension := "png", mime := "image/png",
         link_type := "image",
         url := routeUrl "qgis_server:legend" env.name } : LinkRec)
        ∈ layerLinks env iv oe := by
  refine ⟨?_, ?_, ?_⟩
  · intro hg
    unfold layerLinks
    simp [if_pos hg, List.mem_append]
  · intro hg l hl
    unfold layerLinks at hl
    by_cases hv : iv = true <;> by_cases hw : env.instanceIsVector = true <;>
      simp only [hv, hw, if_neg hg, if_true, if_false, Bool.false_eq_true,
        List.append_assoc, List.nil_append, List.append_nil, List.cons_append,
        List.mem_cons, List.mem_singleton, List.not_mem_nil, or_false] at hl <;>
      rcases hl with rfl | rfl | rfl | rfl | rfl | rfl | rfl <;>
      first
        | exact append3_ne_geotiff "OGC WMS: " env.workspace " Service" (by decide)
        | exact append3_ne_geotiff "OGC WFS: " env.workspace " Service" (by decide)
        | simp
  · unfold layerLinks
    simp [List.mem_append]

/-- Claim C3: after a completed Layer save whose original upload extension is
in the geotiff-format subset, a "GeoTIFF" Link with MIME `image/tiff`, link
type `image` and the original extension exists; outside that subset no
"GeoTIFF" Link is created; in both cases the handler completes its later
steps (Legend link, thumbnail queueing, attribute extraction). -/
theorem C3_theorem (env : LayerEnv) (p : String)
    (hb : env.baseFile = some p) (he : (layerHandler env).error = none) :
    (lastSplitDot (splitext p).2 ∈ QGISServerLayer.geotiff_format →
      ({ name := "GeoTIFF", extension := lastSplitDot (splitext p).2,
         mime := "image/tiff", link_type := "image",
         url := routeUrl "qgis_server:geotiff" env.name } : LinkRec)
        ∈ (layerHandler env).links)
    ∧ (lastSplitDot (splitext p).2 ∉ QGISServerLayer.geotiff_format →
      ∀ l ∈ (layerHandler env).links, l.name ≠ "GeoTIFF")
    ∧ (layerHandler env).thumbnailQueued = true
    ∧ (layerHandler env).attributesSet = true
    ∧ ({ name := "Legend", extension := "png", mime := "image/png",
         link_type := "image",
         url := routeUrl "qgis_server:legend" env.name } : LinkRec)
        ∈ (layerHandler env).links := by
  rw [layerHandler_ok_eq env p hb he]
  obtain ⟨hlinks, hthumb, hattr⟩ :=
    layerFinalResult_fields env (splitext p).2
      (if env.existingRecord.isNone then
         pathJoin env.layerDir ((splitext (baseName p)).1 ++ (splitext p).2)
       else env.existingRecord.getD "")
      (mirrorFiles env.fs env.copyFails (splitext p).1
        (mirrorDst env p) QGISServerLayer.accepted_format).1
  rw [hlinks, hthumb, hattr]
  obtain ⟨hg1, hg2, hg3⟩ :=
    layerLinks_geotiff env
      (if env.is_qlr then env.qlrType == "vector" else env.is_vector)
      (splitext p).2
  exact ⟨hg1, hg2, rfl, rfl, hg3⟩

/-- Claim C3, witness: a `.tif` upload gains the GeoTIFF Link and still
completes later steps; a `.shp` upload produces no Link named "GeoTIFF". -/
theorem C3_witness :
    ({ name := "GeoTIFF", extension := "tif", mime := "image/tiff",
       link_type := "image",
       url := "qgis_server:geotiff/raster1" } : LinkRec)
      ∈ (layerHandler envGeoTiff).links
    ∧ (layerHandler envGeoTiff).thumbnailQueued = true
    ∧ (∀ l ∈ (layerHandler envShapefile).links, l.name ≠ "GeoTIFF") := by
  have h1 := C3_theorem envGeoTiff "/uploads/raster.tif" rfl (by decide)
  have h2 := C3_theorem envShapefile "/uploads/parcels.shp" rfl (by decide)
  exact ⟨h1.1 (by decide), h1.2.2.1, h2.2.1 (by decide)⟩
